import Mathlib

/-!
Shallow embedding of the paginated-gallery view-state machine of
`src/pages/Gallery.jsx` (LensBridgeFrontend).

State variables of the `Gallery` React component are collected in
`GalleryState`; each event handler and effect body of the component is
embedded as a pure state transformer.  Asynchronous results (HTTP
responses, HEIC conversion results) are supplied as explicit outcome
values, and the application of a resolved fetch to the component state
is the function `applyFetchOutcome`, mirroring the body of
`fetchGalleryData` after `await fetch` returns.
-/

/-- `item.type` in the JSX: either `'image'` or `'video'`. -/
inductive MediaType where
  | image
  | video
deriving DecidableEq

/-- A gallery item as consumed by `Gallery.jsx`.  Only the fields the
component logic reads are modelled; `originalSrc` is the extra field
added by `processGalleryItems` when a HEIC source is converted. -/
structure MediaItem where
  id : Nat
  type : MediaType
  src : String
  originalSrc : Option String := none
  featured : Bool := false
deriving DecidableEq

/-- The `pageable` state object: `{ page, size, sort }`. -/
structure Pageable where
  page : Int
  size : Int
  sort : String
deriving DecidableEq

/-- The `useState` variables of the `Gallery` component. -/
structure GalleryState where
  searchTerm : String
  selectedFilter : String
  galleryItems : List MediaItem
  isLoading : Bool
  isPaginating : Bool
  error : Option String
  selectedItem : Option MediaItem
  currentIndex : Int
  isVideoPlaying : Bool
  currentPage : Int
  pageSize : Int
  totalPages : Int
  totalElements : Int
  pageable : Pageable
  searchInput : String
deriving DecidableEq

/-- The initial values passed to `useState` in `Gallery.jsx`. -/
def initialState : GalleryState where
  searchTerm := ""
  selectedFilter := "all"
  galleryItems := []
  isLoading := true
  isPaginating := false
  error := none
  selectedItem := none
  currentIndex := 0
  isVideoPlaying := false
  currentPage := 0
  pageSize := 12
  totalPages := 0
  totalElements := 0
  pageable := { page := 0, size := 12, sort := "date,desc" }
  searchInput := ""

/-- Outcome of one call to `convertHeicToJpeg(imageUrl)`: the function
fetches the URL, inspects the blob MIME type, and runs `heic2any`.
Which of those steps succeeds is environment-determined, so we model it
as an oracle value per URL. -/
inductive ConvResult where
  | fetchError
  | notHeicBlob
  | convertError
  | converted (objectUrl : String)
deriving DecidableEq

/-- The conversion oracle: what `fetch`+`heic2any` do for a given URL. -/
abbrev ConvEnv := String → ConvResult

/-- `convertHeicToJpeg`: returns the object URL produced by `heic2any`
on success; returns the original URL when the blob is not HEIC/HEIF or
when any step throws (the `catch` branch). -/
def convertHeicToJpeg (env : ConvEnv) (imageUrl : String) : String :=
  match env imageUrl with
  | .fetchError => imageUrl
  | .notHeicBlob => imageUrl
  | .convertError => imageUrl
  | .converted objectUrl => objectUrl

/-- Occurrence of a pattern in a character list, by structural
recursion on the haystack. -/
def containsChars (pat : List Char) : List Char → Bool
  | [] => pat.isEmpty
  | c :: rest => pat.isPrefixOf (c :: rest) || containsChars pat rest

/-- JavaScript `String.prototype.includes`. -/
def containsSubstr (s pat : String) : Bool :=
  containsChars pat.data s.data

/-- JavaScript `String.prototype.toLowerCase`, character-wise. -/
def lowerString (s : String) : String :=
  ⟨s.data.map Char.toLower⟩

/-- JavaScript `String.prototype.startsWith`. -/
def strStartsWith (s pat : String) : Bool :=
  pat.data.isPrefixOf s.data

/-- The guard of `processGalleryItems`:
`item.src.toLowerCase().includes('.heic') || ....includes('.heif')`. -/
def heicFlagged (src : String) : Bool :=
  containsSubstr (lowerString src) ".heic" || containsSubstr (lowerString src) ".heif"

/-- Per-item body of `processGalleryItems`: convert flagged images,
recording the original source; leave every other item untouched. -/
def processItem (env : ConvEnv) (item : MediaItem) : MediaItem :=
  if item.type = .image ∧ heicFlagged item.src = true then
    { item with src := convertHeicToJpeg env item.src, originalSrc := some item.src }
  else item

/-- `processGalleryItems(items)`. -/
def processGalleryItems (env : ConvEnv) (items : List MediaItem) : List MediaItem :=
  items.map (processItem env)

/-- Resolution of one gallery fetch, as seen by `fetchGalleryData`:
a thrown HTTP error (`!response.ok`), a network error, a Spring Boot
paged envelope (`data.content` present), or the non-paginated fallback
(flat array or `{items: []}`). -/
inductive FetchOutcome where
  | httpError (status : Int)
  | networkError (message : String)
  | paged (content : List MediaItem) (number totalPagesR totalElementsR sizeR : Int)
  | flat (items : List MediaItem)

/-- The body of `fetchGalleryData` from the point the request is issued
to the `finally` block: set the loading flag (full load when no items
are displayed, pagination overlay otherwise), clear `error`, then apply
the resolved outcome, then clear both loading flags. -/
def applyFetchOutcome (env : ConvEnv) (s : GalleryState) (o : FetchOutcome) : GalleryState :=
  let s1 :=
    if s.galleryItems.length = 0 then
      { s with isLoading := true, error := none }
    else
      { s with isPaginating := true, error := none }
  let s2 :=
    match o with
    | .httpError status =>
        { s1 with error := some ("HTTP error! status: " ++ toString status) }
    | .networkError message =>
        { s1 with error := some message }
    | .paged content number totalPagesR totalElementsR sizeR =>
        { s1 with
            galleryItems := processGalleryItems env content
            currentPage := number
            totalPages := totalPagesR
            totalElements := totalElementsR
            pageSize := sizeR }
    | .flat items =>
        let processed := processGalleryItems env items
        { s1 with
            galleryItems := processed
            totalElements := (processed.length : Int)
            totalPages := 1 }
  { s2 with isLoading := false, isPaginating := false }

/-- Fetch responses applied to the state in arrival order.  The code
applies every resolved response unconditionally (no generation tag and
no cancellation), so out-of-order arrivals fold in exactly like this. -/
def applyResponses (env : ConvEnv) (s : GalleryState) (os : List FetchOutcome) : GalleryState :=
  os.foldl (applyFetchOutcome env) s

/-- The query parameters built by `fetchGalleryData` via
`URLSearchParams`: always `page`, `size`, `sort`; `search` when the
settled search term is non-empty; the filter encoding when a filter is
selected. -/
def buildParams (s : GalleryState) : List (String × String) :=
  [("page", toString s.pageable.page),
   ("size", toString s.pageable.size),
   ("sort", s.pageable.sort)]
  ++ (if s.searchTerm ≠ "" then [("search", s.searchTerm)] else [])
  ++ (if s.selectedFilter ≠ "all" then
        if s.selectedFilter = "featured" then [("featured", "true")]
        else if s.selectedFilter = "images" then [("type", "image")]
        else if s.selectedFilter = "videos" then [("type", "video")]
        else []
      else [])

/-- The dependency array of the fetch `useEffect`:
`[pageable, searchTerm, selectedFilter]`.  A new fetch is issued exactly
when this triple changes. -/
def fetchDeps (s : GalleryState) : Pageable × String × String :=
  (s.pageable, s.searchTerm, s.selectedFilter)

/-- The debounce timer callback (the `setTimeout` body in the search
`useEffect`): propagate the buffered input to `searchTerm` and reset the
page to 0. -/
def debounceSettle (s : GalleryState) : GalleryState :=
  { s with
      searchTerm := s.searchInput
      pageable := { s.pageable with page := 0 } }

/-- `handleSearchChange`: keystrokes only update the input buffer. -/
def handleSearchChange (s : GalleryState) (value : String) : GalleryState :=
  { s with searchInput := value }

/-- `handleFilterChange`: set the filter and reset the page to 0. -/
def handleFilterChange (s : GalleryState) (filter : String) : GalleryState :=
  { s with
      selectedFilter := filter
      pageable := { s.pageable with page := 0 } }

/-- `handlePageChange`: accept the new page only inside `[0, totalPages)`. -/
def handlePageChange (s : GalleryState) (newPage : Int) : GalleryState :=
  if 0 ≤ newPage ∧ newPage < s.totalPages then
    { s with pageable := { s.pageable with page := newPage } }
  else s

/-- `handlePageSizeChange`: new size, page reset to 0. -/
def handlePageSizeChange (s : GalleryState) (newSize : Int) : GalleryState :=
  { s with pageable := { s.pageable with size := newSize, page := 0 } }

/-- `filteredItems` (line 193): filtering is server-side, so this is
just `galleryItems`. -/
def filteredItems (s : GalleryState) : List MediaItem :=
  s.galleryItems

/-- JavaScript array indexing `arr[i]`, which yields `undefined` for an
out-of-range or negative index. -/
def listGetInt (l : List MediaItem) (i : Int) : Option MediaItem :=
  if 0 ≤ i then l[i.toNat]? else none

/-- `openViewer(item)`: locate the item in the current page
(`findIndex`, -1 when absent), select it, stop video playback. -/
def openViewer (s : GalleryState) (item : MediaItem) : GalleryState :=
  let index : Int :=
    match (filteredItems s).findIdx? (fun i => i.id == item.id) with
    | some n => (n : Int)
    | none => -1
  { s with currentIndex := index, selectedItem := some item, isVideoPlaying := false }

/-- `closeViewer`: clear the selection and playback flag, and revoke the
object URL of the previously selected item when it is a `blob:` URL.
The second component is the list of URLs passed to
`URL.revokeObjectURL` by this call. -/
def closeViewer (s : GalleryState) : GalleryState × List String :=
  let revoked :=
    match s.selectedItem with
    | some item => if strStartsWith item.src "blob:" then [item.src] else []
    | none => []
  ({ s with selectedItem := none, isVideoPlaying := false }, revoked)

/-- `'next'` / `'prev'` argument of `navigateViewer`. -/
inductive NavDirection where
  | next
  | prev
deriving DecidableEq

/-- `navigateViewer(direction)`: JavaScript `%` is truncating remainder,
so the index arithmetic is `Int.tmod`. -/
def navigateViewer (s : GalleryState) (direction : NavDirection) : GalleryState :=
  let len : Int := ((filteredItems s).length : Int)
  let newIndex : Int :=
    match direction with
    | .next => Int.tmod (s.currentIndex + 1) len
    | .prev => Int.tmod (s.currentIndex - 1 + len) len
  { s with
      currentIndex := newIndex
      selectedItem := listGetInt (filteredItems s) newIndex
      isVideoPlaying := false }

/-- The cleanup function of the `useEffect` on `[galleryItems]`
(lines 265-273): on unmount it revokes every `blob:` URL still present
in `galleryItems`.  Returns the list of URLs revoked. -/
def unmountCleanup (s : GalleryState) : List String :=
  ((s.galleryItems.filter (fun item => strStartsWith item.src "blob:")).map
    (fun item => item.src))

/-- Viewer-lifecycle events relevant to object-URL ownership. -/
inductive GEvent where
  | openV (item : MediaItem)
  | closeV
  | navigate (d : NavDirection)
  | unmount

/-- One event applied to the state, together with the URLs revoked by
the handlers that run for it. -/
def stepEvent (s : GalleryState) (e : GEvent) : GalleryState × List String :=
  match e with
  | .openV item => (openViewer s item, [])
  | .closeV => closeViewer s
  | .navigate d => (navigateViewer s d, [])
  | .unmount => (s, unmountCleanup s)

/-- A sequence of viewer events; the second component accumulates every
URL revocation performed along the trace. -/
def runEvents (s : GalleryState) (es : List GEvent) : GalleryState × List String :=
  es.foldl (fun acc e =>
    let r := stepEvent acc.1 e
    (r.1, acc.2 ++ r.2)) (s, [])

/-- The page-number computation of the pagination controls
(lines 555-565): the label rendered at position `i` of the row of at
most five buttons. -/
def pageNum (totalPages currentPage : Int) (i : Int) : Int :=
  if totalPages ≤ 5 then i
  else if currentPage < 3 then i
  else if currentPage > totalPages - 4 then totalPages - 5 + i
  else currentPage - 2 + i

/-- The full row of page-number buttons:
`Array.from({length: Math.min(5, totalPages)}, (_, i) => ...)`. -/
def pageWindow (totalPages currentPage : Int) : List Int :=
  (List.range (min 5 totalPages).toNat).map
    (fun i => pageNum totalPages currentPage (i : Int))

/-- The closed integer interval `[a..b]` as a list. -/
def intRange (a b : Int) : List Int :=
  (List.range (b - a + 1).toNat).map (fun i => a + (i : Int))

/-- The window selection rule as the spec states it (§4.5): all pages
when `totalPages ≤ 5`; `[0..4]` when `currentPage < 3`;
`[totalPages-5..totalPages-1]` when `currentPage > totalPages-4`;
otherwise `[currentPage-2..currentPage+2]`. -/
def specWindow (totalPages currentPage : Int) : List Int :=
  if totalPages ≤ 5 then intRange 0 (totalPages - 1)
  else if currentPage < 3 then intRange 0 4
  else if currentPage > totalPages - 4 then intRange (totalPages - 5) (totalPages - 1)
  else intRange (currentPage - 2) (currentPage + 2)

/-- The debounce `useEffect` on `[searchInput]`, run over a timeline of
keystrokes `(time, bufferValue)`.  Each keystroke's cleanup clears the
pending timeout and the new effect schedules one firing 500ms later; a
pending timeout whose deadline has passed by the time of the next
keystroke has already fired, emitting its value as a `searchTerm`
update.  After the last keystroke the pending timeout fires.  The
result is the list of propagated `searchTerm` updates, in order. -/
def debounceRun (pending : Option (Nat × String)) :
    List (Nat × String) → List String
  | [] =>
      match pending with
      | none => []
      | some p => [p.2]
  | (t, v) :: rest =>
      match pending with
      | none => debounceRun (some (t + 500, v)) rest
      | some p =>
          if p.1 ≤ t then p.2 :: debounceRun (some (t + 500, v)) rest
          else debounceRun (some (t + 500, v)) rest

/-- Keystrokes each arriving strictly within 500ms of the previous one. -/
def rapidKeys (ks : List (Nat × String)) : Prop :=
  List.Chain' (fun a b => b.1 < a.1 + 500) ks

/-- The spec's PageResult invariant: `pageIndex < totalPages` whenever
`totalElements > 0`, read on the component's pagination state. -/
def paginationInvariant (s : GalleryState) : Prop :=
  s.totalElements > 0 → s.currentPage < s.totalPages

/-- A plain image item, as served on page 0. -/
def itemPage0 : MediaItem where
  id := 1
  type := .image
  src := "page0.jpg"

/-- A plain image item, as served on page 1. -/
def itemPage1 : MediaItem where
  id := 2
  type := .image
  src := "page1.jpg"

/-- An image item whose `src` is a locally-created object URL, as
produced by a successful HEIC conversion. -/
def blobItem : MediaItem where
  id := 7
  type := .image
  src := "blob:converted-7"

/-- A conversion oracle under which every conversion attempt throws;
items without the HEIC flag never consult it. -/
def env0 : ConvEnv := fun _ => .fetchError

/-- A loaded gallery whose single displayed item carries an object URL. -/
def galleryWithBlob : GalleryState :=
  { initialState with galleryItems := [blobItem], isLoading := false }

/-- The paged response for page 0 of a two-page listing. -/
def respPageA : FetchOutcome := .paged [itemPage0] 0 2 2 1

/-- The paged response for page 1 of a two-page listing. -/
def respPageB : FetchOutcome := .paged [itemPage1] 1 2 2 1

/-- A three-item page, for the circular-navigation instances. -/
def threeItems : List MediaItem := [itemPage0, itemPage1, blobItem]

/-- Viewer open on the three-item page at index `i`. -/
def viewerAt (i : Int) : GalleryState :=
  { initialState with galleryItems := threeItems, currentIndex := i, isLoading := false }

/-- A video item (never passed to the converter). -/
def itemVideo : MediaItem where
  id := 3
  type := .video
  src := "clip.mp4"

/-- An image item flagged as HEIC by its source URL. -/
def heicItem : MediaItem where
  id := 4
  type := .image
  src := "IMG_1.HEIC"

/-- A conversion oracle under which conversion succeeds with a fixed
object URL. -/
def envConv : ConvEnv := fun _ => .converted "blob:converted-4"

/-- C1: the code has no stale-response guard.  With request A (page 0)
and request B (page 1) both in flight and B's response applied first,
the late arrival of A's response is applied unconditionally, so the
final displayed page is A's (page 0), not B's — the claim's required
ordering guarantee is violated by `fetchGalleryData`. -/
theorem C1_stale_response_applied :
    (applyResponses env0 initialState [respPageB, respPageA]).galleryItems = [itemPage0] ∧
    (applyResponses env0 initialState [respPageB, respPageA]).currentPage = 0 ∧
    itemPage0 ≠ itemPage1 := by decide

/-- C2: the debounce-settle callback and `handleFilterChange` both set
`pageable.page` to 0, and the request parameters built from the
resulting state carry `page=0`. -/
theorem C2_query_change_resets_page (s : GalleryState) (f : String) :
    (debounceSettle s).pageable.page = 0 ∧
    (handleFilterChange s f).pageable.page = 0 ∧
    List.lookup "page" (buildParams (debounceSettle s)) = some "0" ∧
    List.lookup "page" (buildParams (handleFilterChange s f)) = some "0" := by
  refine ⟨rfl, rfl, ?_, ?_⟩ <;>
    simp [buildParams, debounceSettle, handleFilterChange, List.lookup] <;> rfl

/-- C4: the object URL of a viewed item is revoked twice — once by
`closeViewer` and again by the `galleryItems` cleanup effect on
unmount, because closing the viewer does not remove the item (or its
URL) from `galleryItems`.  The trace open → close → unmount releases
the same URL twice, violating the exactly-once claim. -/
theorem C4_double_release :
    (runEvents galleryWithBlob [.openV blobItem, .closeV, .unmount]).2
      = ["blob:converted-7", "blob:converted-7"] ∧
    ¬ (runEvents galleryWithBlob [.openV blobItem, .closeV, .unmount]).2.count
        "blob:converted-7" = 1 := by decide

/-- C5 counterexample: after a well-formed page-1 envelope, a flat-list
response is applied; the fallback branch sets `totalPages := 1` and
`totalElements := items.length` but leaves `currentPage` at 1, so
`totalElements > 0` holds while `currentPage < totalPages` fails. -/
theorem C5_flat_fallback_violates_invariant :
    (applyResponses env0 initialState [respPageB, .flat [itemPage0]]).totalElements > 0 ∧
    ¬ (applyResponses env0 initialState [respPageB, .flat [itemPage0]]).currentPage
        < (applyResponses env0 initialState [respPageB, .flat [itemPage0]]).totalPages := by
  decide

/-- C5 amended: the paged branch copies the envelope's fields without
validation, so the invariant holds after it exactly when the envelope
itself satisfies it; the flat-fallback branch preserves the invariant
provided the prior `currentPage` is 0 (it does not reset the page). -/
theorem C5_invariant_conditional (env : ConvEnv) (s : GalleryState)
    (content items : List MediaItem) (number tp te sz : Int)
    (hwf : te > 0 → number < tp) :
    paginationInvariant (applyFetchOutcome env s (.paged content number tp te sz)) ∧
    (s.currentPage = 0 →
      paginationInvariant (applyFetchOutcome env s (.flat items))) := by
  unfold paginationInvariant applyFetchOutcome
  by_cases h : s.galleryItems.length = 0 <;> simp [h] <;>
    exact ⟨hwf, fun h0 _ => by rw [h0]; norm_num⟩

/-- C5 witness: concrete instantiation of the amended invariant. -/
theorem C5_invariant_conditional_witness :
    paginationInvariant (applyFetchOutcome env0 initialState
      (.paged [itemPage0] 0 2 2 1)) ∧
    (initialState.currentPage = 0 →
      paginationInvariant (applyFetchOutcome env0 initialState (.flat [itemPage0]))) :=
  C5_invariant_conditional env0 initialState [itemPage0] [itemPage0] 0 2 2 1
    (by decide)

/-- C6: a failed fetch (HTTP non-2xx or network error) surfaces the
failure message in `error`, leaves `galleryItems` untouched, and leaves
the fetch effect's dependency triple unchanged — so no new fetch is
triggered (no automatic retry). -/
theorem C6_fetch_failure_handling (env : ConvEnv) (s : GalleryState)
    (status : Int) (msg : String) :
    (applyFetchOutcome env s (.httpError status)).error
        = some ("HTTP error! status: " ++ toString status) ∧
    (applyFetchOutcome env s (.httpError status)).galleryItems = s.galleryItems ∧
    fetchDeps (applyFetchOutcome env s (.httpError status)) = fetchDeps s ∧
    (applyFetchOutcome env s (.networkError msg)).error = some msg ∧
    (applyFetchOutcome env s (.networkError msg)).galleryItems = s.galleryItems ∧
    fetchDeps (applyFetchOutcome env s (.networkError msg)) = fetchDeps s := by
  unfold applyFetchOutcome fetchDeps
  by_cases h : s.galleryItems.length = 0 <;> simp [h]

/-- C10: opening the viewer and navigating to a neighbouring item both
reset `isVideoPlaying` to `false`, so immediately after any item change
the viewer reports the new item as not playing. -/
theorem C10_item_change_resets_playing (s : GalleryState) (item : MediaItem)
    (d : NavDirection) :
    (openViewer s item).isVideoPlaying = false ∧
    (navigateViewer s d).isVideoPlaying = false := by
  cases d <;> exact ⟨rfl, rfl⟩

/-- C3: the rendered row of page-number buttons equals the spec's
window rule for every `totalPages ≥ 1` and `currentPage ∈ [0, totalPages)`. -/
theorem C3_pagination_window (tp cp : Int) (h1 : 1 ≤ tp) (h2 : 0 ≤ cp)
    (h3 : cp < tp) :
    pageWindow tp cp = specWindow tp cp := by
  by_cases hle : tp ≤ 5
  · have hpn : ∀ i : Int, pageNum tp cp i = i := by
      intro i; unfold pageNum; rw [if_pos hle]
    unfold pageWindow specWindow intRange
    rw [if_pos hle]
    have hmin : min (5 : Int) tp = tp := min_eq_right hle
    have harith : tp - 1 - 0 + 1 = tp := by ring
    rw [hmin, harith]
    simp [hpn]
  · by_cases hcp : cp < 3
    · have hpn : ∀ i : Int, pageNum tp cp i = i := by
        intro i; unfold pageNum; rw [if_neg hle, if_pos hcp]
      unfold pageWindow specWindow intRange
      rw [if_neg hle, if_pos hcp]
      have hmin : min (5 : Int) tp = 5 := min_eq_left (by omega)
      have harith : (4 : Int) - 0 + 1 = 5 := by ring
      rw [hmin, harith]
      simp [hpn]
    · have hmin : min (5 : Int) tp = 5 := min_eq_left (by omega)
      by_cases hr : cp > tp - 4
      · have hpn : ∀ i : Int, pageNum tp cp i = tp - 5 + i := by
          intro i; unfold pageNum; rw [if_neg hle, if_neg hcp, if_pos hr]
        unfold pageWindow specWindow intRange
        rw [if_neg hle, if_neg hcp, if_pos hr]
        have harith : tp - 1 - (tp - 5) + 1 = 5 := by ring
        rw [hmin, harith]
        simp [hpn]
      · have hpn : ∀ i : Int, pageNum tp cp i = cp - 2 + i := by
          intro i; unfold pageNum; rw [if_neg hle, if_neg hcp, if_neg hr]
        unfold pageWindow specWindow intRange
        rw [if_neg hle, if_neg hcp, if_neg hr]
        have harith : cp + 2 - (cp - 2) + 1 = 5 := by ring
        rw [hmin, harith]
        simp [hpn]

/-- C3 witness: the window at `totalPages = 20`, `currentPage = 10`,
which the rule places at `[8..12]`. -/
theorem C3_pagination_window_witness :
    pageWindow 20 10 = specWindow 20 10 ∧ pageWindow 20 10 = [8, 9, 10, 11, 12] ∧
    pageWindow 3 0 = [0, 1, 2] ∧ pageWindow 3 1 = [0, 1, 2] ∧ pageWindow 3 2 = [0, 1, 2] :=
  ⟨C3_pagination_window 20 10 (by decide) (by decide) (by decide),
   by decide, by decide, by decide, by decide⟩


/-- C7: viewer navigation is circular over the current page's items:
`next` moves to `(i+1) mod n`, `prev` to `(i-1+n) mod n`, the new index
stays inside `[0, n)`, and the newly selected item is taken from the
current page's item list — navigation never crosses a page boundary. -/
theorem C7_circular_navigation (s : GalleryState)
    (hpos : 0 < s.galleryItems.length)
    (h0 : 0 ≤ s.currentIndex)
    (hlt : s.currentIndex < (s.galleryItems.length : Int)) :
    (navigateViewer s .next).currentIndex
        = (s.currentIndex + 1) % (s.galleryItems.length : Int) ∧
    (navigateViewer s .prev).currentIndex
        = (s.currentIndex - 1 + (s.galleryItems.length : Int))
            % (s.galleryItems.length : Int) ∧
    0 ≤ (navigateViewer s .next).currentIndex ∧
    (navigateViewer s .next).currentIndex < (s.galleryItems.length : Int) ∧
    0 ≤ (navigateViewer s .prev).currentIndex ∧
    (navigateViewer s .prev).currentIndex < (s.galleryItems.length : Int) ∧
    (navigateViewer s .next).selectedItem
        = s.galleryItems[((navigateViewer s .next).currentIndex).toNat]? ∧
    (navigateViewer s .prev).selectedItem
        = s.galleryItems[((navigateViewer s .prev).currentIndex).toNat]? := by
  have hlen : (0 : Int) < (s.galleryItems.length : Int) := by exact_mod_cast hpos
  have hne : (s.galleryItems.length : Int) ≠ 0 := ne_of_gt hlen
  have hnext : (navigateViewer s .next).currentIndex
      = Int.tmod (s.currentIndex + 1) (s.galleryItems.length : Int) := rfl
  have hprev : (navigateViewer s .prev).currentIndex
      = Int.tmod (s.currentIndex - 1 + (s.galleryItems.length : Int))
          (s.galleryItems.length : Int) := rfl
  have hn : Int.tmod (s.currentIndex + 1) (s.galleryItems.length : Int)
      = (s.currentIndex + 1) % (s.galleryItems.length : Int) :=
    Int.tmod_eq_emod (by omega) (le_of_lt hlen)
  have hp : Int.tmod (s.currentIndex - 1 + (s.galleryItems.length : Int))
        (s.galleryItems.length : Int)
      = (s.currentIndex - 1 + (s.galleryItems.length : Int))
          % (s.galleryItems.length : Int) :=
    Int.tmod_eq_emod (by omega) (le_of_lt hlen)
  have hnextsel : (navigateViewer s .next).selectedItem
      = listGetInt s.galleryItems (navigateViewer s .next).currentIndex := rfl
  have hprevsel : (navigateViewer s .prev).selectedItem
      = listGetInt s.galleryItems (navigateViewer s .prev).currentIndex := rfl
  have hnn : 0 ≤ (navigateViewer s .next).currentIndex := by
    rw [hnext, hn]; exact Int.emod_nonneg _ hne
  have hpn : 0 ≤ (navigateViewer s .prev).currentIndex := by
    rw [hprev, hp]; exact Int.emod_nonneg _ hne
  refine ⟨hnext.trans hn, hprev.trans hp, hnn, ?_, hpn, ?_, ?_, ?_⟩
  · rw [hnext, hn]; exact Int.emod_lt_of_pos _ hlen
  · rw [hprev, hp]; exact Int.emod_lt_of_pos _ hlen
  · rw [hnextsel]; unfold listGetInt; rw [if_pos hnn]
  · rw [hprevsel]; unfold listGetInt; rw [if_pos hpn]

/-- C7 witness: on a 3-item page, `next` from index 2 yields index 0
and `prev` from index 0 yields index 2. -/
theorem C7_circular_navigation_witness :
    (navigateViewer (viewerAt 2) .next).currentIndex = 0 ∧
    (navigateViewer (viewerAt 0) .prev).currentIndex = 2 := by
  have ha := C7_circular_navigation (viewerAt 2) (by decide) (by decide) (by decide)
  have hb := C7_circular_navigation (viewerAt 0) (by decide) (by decide) (by decide)
  exact ⟨ha.1.trans (by decide), hb.2.1.trans (by decide)⟩

/-- Rapid keystrokes never let the single pending debounce timer fire:
with a pending timer whose deadline lies beyond the next keystroke,
running the timeline emits exactly the final buffered value. -/
theorem debounceRun_rapid (ks : List (Nat × String)) :
    ∀ d pv, rapidKeys ks → (∀ x ∈ ks.head?, x.1 < d) →
      debounceRun (some (d, pv)) ks = [(ks.getLastD (0, pv)).2] := by
  induction ks with
  | nil => intro d pv _ _; rfl
  | cons k rest ih =>
      intro d pv hchain hhead
      obtain ⟨t, v⟩ := k
      have hk : t < d := by
        have := hhead (t, v) (by simp)
        exact this
      unfold rapidKeys at hchain
      obtain ⟨hheadrel, htail⟩ := List.chain'_cons'.mp hchain
      have hstep : debounceRun (some (d, pv)) ((t, v) :: rest)
          = if d ≤ t then pv :: debounceRun (some (t + 500, v)) rest
            else debounceRun (some (t + 500, v)) rest := rfl
      rw [hstep, if_neg (by omega), ih (t + 500) v htail hheadrel]
      cases rest <;> simp [List.getLastD]

/-- C8: a nonempty keystroke sequence in which every keystroke arrives
within 500ms of the previous one propagates exactly one `searchTerm`
update, carrying the final buffered value. -/
theorem C8_debounce_single_update (k : Nat × String) (rest : List (Nat × String))
    (hrapid : rapidKeys (k :: rest)) :
    debounceRun none (k :: rest) = [((k :: rest).getLastD k).2] := by
  obtain ⟨t, v⟩ := k
  unfold rapidKeys at hrapid
  obtain ⟨hheadrel, htail⟩ := List.chain'_cons'.mp hrapid
  have hstep : debounceRun none ((t, v) :: rest)
      = debounceRun (some (t + 500, v)) rest := rfl
  rw [hstep, debounceRun_rapid rest (t + 500) v htail hheadrel]
  cases rest <;> simp [List.getLastD]

/-- C8 witness: three keystrokes 100ms apart propagate exactly the
final value. -/
theorem C8_debounce_single_update_witness :
    debounceRun none [(0, "a"), (100, "ab"), (200, "abc")] = ["abc"] := by
  have h := C8_debounce_single_update (0, "a") [(100, "ab"), (200, "abc")]
    (by
      unfold rapidKeys
      exact List.chain'_cons.mpr ⟨by decide,
        List.chain'_cons.mpr ⟨by decide, List.chain'_singleton _⟩⟩)
  simpa using h

/-- C9: the normalizer rewrites `src` only for image items flagged as
HEIC/HEIF whose conversion succeeds, preserving the original locator in
`originalSrc`; video items and unflagged items are returned verbatim
(for every conversion oracle, so no conversion is attempted), and a
flagged item whose conversion fails keeps its locator unchanged. -/
theorem C9_normalizer_conditions (env : ConvEnv) (item : MediaItem) :
    (item.type = .video → processItem env item = item) ∧
    (heicFlagged item.src = false → processItem env item = item) ∧
    (item.type = .image → heicFlagged item.src = true →
      (∀ u, env item.src = .converted u →
          processItem env item
            = { item with src := u, originalSrc := some item.src }) ∧
      ((env item.src = .fetchError ∨ env item.src = .notHeicBlob ∨
          env item.src = .convertError) →
        (processItem env item).src = item.src ∧
        (processItem env item).originalSrc = some item.src)) := by
  refine ⟨?_, ?_, ?_⟩
  · intro hv
    unfold processItem
    rw [if_neg]
    rintro ⟨hi, _⟩
    rw [hv] at hi
    cases hi
  · intro hf
    unfold processItem
    rw [if_neg]
    rintro ⟨_, hflag⟩
    rw [hf] at hflag
    cases hflag
  · intro hi hflag
    constructor
    · intro u hu
      have hcv : convertHeicToJpeg env item.src = u := by
        unfold convertHeicToJpeg; rw [hu]
      unfold processItem
      rw [if_pos ⟨hi, hflag⟩, hcv]
    · intro hfail
      have hcv : convertHeicToJpeg env item.src = item.src := by
        unfold convertHeicToJpeg
        rcases hfail with h | h | h <;> rw [h]
      unfold processItem
      rw [if_pos ⟨hi, hflag⟩, hcv]
      exact ⟨rfl, rfl⟩

/-- C9 witness: a video item passes through unchanged even under a
succeeding oracle, and a flagged image item is rewritten to the
converted object URL with its original locator preserved. -/
theorem C9_normalizer_conditions_witness :
    processItem envConv itemVideo = itemVideo ∧
    processItem envConv heicItem
      = { heicItem with src := "blob:converted-4", originalSrc := some heicItem.src } := by
  have hv := C9_normalizer_conditions envConv itemVideo
  have hh := C9_normalizer_conditions envConv heicItem
  exact ⟨hv.1 rfl, (hh.2.2 rfl (by decide)).1 "blob:converted-4" rfl⟩
